import Mathlib

/-!
Shallow embedding of the core of the TTS data pipeline: the multi-sink
status ledger (`Loggers`, `DatabaseLogger`, `ConsoleLogger` in
`roar_data_pipeline/utils/loggers.py`), the worker-pool dispatch of the
stages (`YoutubeDownloader.start_download`, `MusicSeparator.separate_all`),
the path-derived identities of the separation stage, the glob enumeration
of the post-processing stages, and the path decomposition helper
`get_abs_rel_paths` in `roar_data_pipeline/utils/utils.py`.

Python machinery is made explicit: positional calls carry an argument
list and raise a TypeError on an arity mismatch; a for-loop that calls
fallible code is a fold in the Except monad that stops at the first
raised exception; the SQLite table of the durable sink is a list of rows
with INSERT OR REPLACE semantics keyed by its declared primary key.
-/

namespace RoarPipeline

/-- Python values passed positionally to the logger calls. -/
inductive PyVal
  | pyBool (b : Bool)
  | pyStr (s : String)
  deriving DecidableEq, Repr

/-- Python exceptions arising on the embedded code paths. -/
inductive PyError
  | typeError
  | valueError
  | sinkError
  | jobError
  deriving DecidableEq, Repr

/-- One row of a `ctx`-logs table of the durable sink, as declared by
`DatabaseLogger.create_table`: columns (Status, Channel_ID, Video_ID)
with `Video_ID text PRIMARY KEY`. -/
structure Row where
  status : Bool
  channel_id : String
  video_id : String
  deriving DecidableEq, Repr

/-- The durable sink's database: one logs table per stage name `ctx`. -/
abbrev DBState : Type := List (String × List Row)

/-- Reading a stage's logs table; a table that was never created is empty. -/
def getTable (db : DBState) (ctx : String) : List Row :=
  match db.find? (fun e => e.fst == ctx) with
  | some e => e.snd
  | none => []

/-- Writing back a stage's logs table (created lazily on first write). -/
def setTable (db : DBState) (ctx : String) (t : List Row) : DBState :=
  if db.any (fun e => e.fst == ctx) then
    db.map (fun e => if e.fst == ctx then (ctx, t) else e)
  else
    db ++ [(ctx, t)]

/-- SQLite `INSERT OR REPLACE` into a table whose declared primary key is
the `Video_ID` column alone: a conflicting row (same video id) is deleted
and the new row inserted. -/
def insertOrReplace (t : List Row) (r : Row) : List Row :=
  t.filter (fun q => q.video_id != r.video_id) ++ [r]

/-- Body of `DatabaseLogger.log` (loggers.py, lines 64-84): lazily create
the per-stage table, then upsert the (status, channel, video) row. -/
def dbLog (db : DBState) (status : Bool) (channel_id video_id ctx : String) : DBState :=
  setTable db ctx (insertOrReplace (getTable db ctx) ⟨status, channel_id, video_id⟩)

/-- One logical status event as the stages emit it: the arguments of
`logger.log(status, channel_id, video_id, stage_name)`. -/
structure LogEvent where
  status : Bool
  channel_id : String
  video_id : String
  ctx : String
  deriving DecidableEq, Repr

/-- Replaying a sequence of `DatabaseLogger.log` calls against a database. -/
def applyLogsFrom (db : DBState) (events : List LogEvent) : DBState :=
  events.foldl (fun d e => dbLog d e.status e.channel_id e.video_id e.ctx) db

/-- Replaying a sequence of `DatabaseLogger.log` calls against a fresh database. -/
def applyLogs (events : List LogEvent) : DBState :=
  applyLogsFrom [] events

/-- The last event of `events` that wrote stage `ctx` and video id `v`. -/
def lastWriteFor (events : List LogEvent) (ctx v : String) : Option LogEvent :=
  events.reverse.find? (fun e => e.ctx == ctx && e.video_id == v)

/-- Observable state of a two-sink ledger: the durable sink's database and
the number of lines the transient (console) sink has emitted. -/
structure MultiSinkState where
  db : DBState
  consoleLines : Nat
  deriving DecidableEq, Repr

/-- A positional call of `DatabaseLogger.log(self, status, channel_id,
video_id, ctx)`: exactly four arguments are required; any other call
raises a TypeError before the body runs. -/
def databaseLoggerLog (st : MultiSinkState) (args : List PyVal) :
    Except PyError MultiSinkState :=
  match args with
  | [PyVal.pyBool s, PyVal.pyStr c, PyVal.pyStr v, PyVal.pyStr ctx] =>
      Except.ok { st with db := dbLog st.db s c v ctx }
  | _ => Except.error PyError.typeError

/-- A positional call of `ConsoleLogger.log(self, status, channel_id,
video_id)`: exactly three arguments are required; the body emits one
console line. -/
def consoleLoggerLog (st : MultiSinkState) (args : List PyVal) :
    Except PyError MultiSinkState :=
  match args with
  | [_, _, _] => Except.ok { st with consoleLines := st.consoleLines + 1 }
  | _ => Except.error PyError.typeError

/-- The two sink variants the configuration can hold in `Loggers.loggers`. -/
inductive Sink
  | database
  | console
  deriving DecidableEq, Repr

/-- Dispatch of a positional `log` call to one concrete sink. -/
def sinkLog (sink : Sink) (st : MultiSinkState) (args : List PyVal) :
    Except PyError MultiSinkState :=
  match sink with
  | Sink.database => databaseLoggerLog st args
  | Sink.console => consoleLoggerLog st args

/-- The loop body of `Loggers.log` (loggers.py, lines 28-30): each sink's
`log` is called in configured order with the same three arguments; an
exception raised by one sink propagates and ends the loop. -/
def loggersLogLoop (sinks : List Sink) (st : MultiSinkState) (args : List PyVal) :
    Except PyError MultiSinkState :=
  match sinks with
  | [] => Except.ok st
  | s :: rest =>
      match sinkLog s st args with
      | Except.ok st2 => loggersLogLoop rest st2 args
      | Except.error e => Except.error e

/-- A positional call of `Loggers.log(self, status, channel_id, video_id)`:
exactly three arguments are accepted (the signature has no stage-name
parameter); the body forwards those three arguments to every sink. -/
def loggersLog (sinks : List Sink) (st : MultiSinkState) (args : List PyVal) :
    Except PyError MultiSinkState :=
  match args with
  | [status, channel_id, video_id] =>
      loggersLogLoop sinks st [status, channel_id, video_id]
  | _ => Except.error PyError.typeError

/-- The call every stage makes on its ledger, here against a `Loggers`
instance: `self.logger.log(status, channel_id, video_id,
type(self).__name__)` passes four positional arguments. -/
def stageLogCall (sinks : List Sink) (st : MultiSinkState)
    (status : Bool) (channel_id video_id stage : String) :
    Except PyError MultiSinkState :=
  loggersLog sinks st
    [PyVal.pyBool status, PyVal.pyStr channel_id, PyVal.pyStr video_id, PyVal.pyStr stage]

/-- The loop of `Loggers.log` with each sink's behaviour abstracted to
whether its `log` call raises: the result is how many sinks were invoked
(received the event) and the aggregate outcome of the call. -/
def loggersLoop : List Bool → Nat × Except PyError Unit
  | [] => (0, Except.ok ())
  | f :: rest =>
      if f then (1, Except.error PyError.sinkError)
      else ((loggersLoop rest).fst + 1, (loggersLoop rest).snd)

/-- Outcome of one stage run: what the blocking dispatch call returns to
its caller, and how often `self.logger.close()` ran. -/
structure RunOutcome where
  result : Except PyError Unit
  closeCalls : Nat
  deriving Repr

/-- The result-collection loop `for process in processes: process.get()`
(downloader.py, lines 135-136): `get` re-raises the exception of a failed
job, ending the loop at the first failure. -/
def collectAsyncResults : List (Except PyError Unit) → Except PyError Unit
  | [] => Except.ok ()
  | Except.ok _ :: rest => collectAsyncResults rest
  | Except.error e :: _ => Except.error e

/-- The first job error in submission order, if any. -/
def firstError : List (Except PyError Unit) → Option PyError
  | [] => none
  | Except.ok _ :: rest => firstError rest
  | Except.error e :: _ => some e

/-- Construction of `multiprocessing.Pool(processes=num_workers)`: CPython
raises `ValueError` when the requested process count is below one. -/
def poolInit (processes : Nat) : Except PyError Unit :=
  if processes = 0 then Except.error PyError.valueError else Except.ok ()

/-- Control flow of `YoutubeDownloader.start_download` (downloader.py,
lines 120-137), identical in shape to `MusicSeparator.separate_all`: build
the pool from the configured worker count, submit every job, collect each
result in submission order, and only then call `self.logger.close()`.
`close` stands after the pool block with no try/finally, so an exception
raised while collecting results propagates before it runs. -/
def start_download (num_workers : Nat) (jobs : List (Except PyError Unit)) : RunOutcome :=
  match poolInit num_workers with
  | Except.error e => ⟨Except.error e, 0⟩
  | Except.ok _ =>
      match collectAsyncResults jobs with
      | Except.ok _ => ⟨Except.ok (), 1⟩
      | Except.error e => ⟨Except.error e, 0⟩

/-- Modelled from the spec: `StatusLedger.isComplete(group_id, item_id,
stage_name)` of section 4.1. The source defines no completion read on any
logger; this definition follows the spec's words (a read of the durable
rows, absence meaning not complete) so the skip claim can be stated. -/
def isCompleteDB (db : DBState) (stage channel_id video_id : String) : Bool :=
  (getTable db stage).any
    (fun r => r.channel_id == channel_id && r.video_id == video_id && r.status)

/-- Ledger writes of `YoutubeDownloader.get_video_ids` (downloader.py,
lines 79-81): every enumerated video id of the channel is logged
incomplete; no id is filtered against the ledger. -/
def get_video_ids (db : DBState) (channel_id : String) (video_ids : List String) : DBState :=
  video_ids.foldl (fun d v => dbLog d false channel_id v "YoutubeDownloader") db

/-- Submission loop of `YoutubeDownloader.start_download` (downloader.py,
lines 128-134): one job per (channel, video) pair of the enumeration map,
with no consultation of the ledger. -/
def start_download_dispatch (channel_map : List (String × List String)) :
    List (String × String) :=
  channel_map.flatMap (fun cm => cm.snd.map (fun v => (cm.fst, v)))

/-- A whole acquisition-stage run against a prior ledger state: enumerate
(logging every id as incomplete), then dispatch every enumerated pair. -/
def downloader_run (db : DBState) (channel_map : List (String × List String)) :
    DBState × List (String × String) :=
  (channel_map.foldl (fun d cm => get_video_ids d cm.fst cm.snd) db,
   start_download_dispatch channel_map)

/-- Name of the parent directory of a path given as segments
(`audio_filepath.parent.name`). -/
def parentName (p : List String) : String :=
  p.dropLast.getLastD ""

/-- Name of the grandparent directory of a path given as segments
(`audio_filepath.parents[1].name`). -/
def grandparentName (p : List String) : String :=
  p.dropLast.dropLast.getLastD ""

/-- Identity derivation of `MusicSeparator.separate_audio`
(music_separator.py, lines 58-59): `channel_id = audio_filepath.parent.name`
and `video_id = audio_filepath.parents[1].name`. -/
def separate_audio_ids (audio_filepath : List String) : String × String :=
  (parentName audio_filepath, grandparentName audio_filepath)

/-- Directory part of `YoutubeDownloader.download_audio`'s output template
(downloader.py, line 100): the file is saved under
save_dir / channel_id / video_id. -/
def download_outdir (save_dir channel_id video_id : String) : List String :=
  [save_dir, channel_id, video_id]

/-- Whether a name begins with a dot (glob's `*` skips such names). -/
def isHiddenName (s : String) : Bool :=
  s.data.head? == some '.'

/-- Whether a path (relative to the input root, as segments) matches the
glob pattern of the post-processing stages, which ends in the literal
file name `.wav` with no wildcard before the extension; the two `*`
segments do not match hidden names. -/
def wavGlobMatch (p : List String) : Bool :=
  match p with
  | [a, b, c] => !isHiddenName a && !isHiddenName b && c == ".wav"
  | _ => false

/-- Candidate enumeration of `MusicSeparator` and `VAD`
(music_separator.py line 40, voice_activity_detection.py line 40):
the files under the input root matching the glob pattern. -/
def enumerateWavCandidates (files : List (List String)) : List (List String) :=
  files.filter wavGlobMatch

/-- Number of jobs `MusicSeparator.separate_all` submits to its pool: one
per enumerated candidate. -/
def separate_all_submission_count (files : List (List String)) : Nat :=
  (enumerateWavCandidates files).length

/-- A pathlib path in lexical form: whether it is absolute, plus its
name segments (the anchor excluded). -/
structure PyPath where
  absolute : Bool
  parts : List String
  deriving DecidableEq, Repr

/-- Whether the first segment list is an initial run of the second
(the parts comparison `Path.relative_to` performs). -/
def startsWithSegs : List String → List String → Bool
  | [], _ => true
  | _ :: _, [] => false
  | x :: xs, y :: ys => x == y && startsWithSegs xs ys

/-- Test `os.path.isabs(input_path)`. -/
def isabs (p : PyPath) : Bool :=
  p.absolute

/-- Lexical `p.relative_to(b)`: succeeds exactly when `b`'s anchor and
parts are an initial run of `p`'s, returning the remaining relative
segments; otherwise raises ValueError. -/
def relativeTo (p b : PyPath) : Except PyError PyPath :=
  if b.absolute == p.absolute && startsWithSegs b.parts p.parts then
    Except.ok ⟨false, p.parts.drop b.parts.length⟩
  else
    Except.error PyError.valueError

/-- Lexical `b / r` of pathlib: an absolute right operand replaces the
left one, a relative right operand is appended. -/
def joinPath (b r : PyPath) : PyPath :=
  if r.absolute then r else ⟨b.absolute, b.parts ++ r.parts⟩

/-- Body of `get_abs_rel_paths` (utils.py, lines 6-24): an absolute input
keeps itself as the absolute path and takes `relative_to(base_path)` as
the relative one (raising when the input is not under the base); a
relative input keeps itself as the relative path and joins the base in
front for the absolute one. -/
def get_abs_rel_paths (input_path base_path : PyPath) :
    Except PyError (PyPath × PyPath) :=
  if isabs input_path then
    match relativeTo input_path base_path with
    | Except.ok rel => Except.ok (input_path, rel)
    | Except.error e => Except.error e
  else
    Except.ok (joinPath base_path input_path, input_path)

/-- Whether an input path lies under a base path: same anchor and the
base's segments are an initial run of the input's. -/
def locatedUnder (p b : PyPath) : Bool :=
  b.absolute == p.absolute && startsWithSegs b.parts p.parts

/-! Helper lemmas. -/

theorem startsWithSegs_append_drop (b : List String) :
    ∀ p : List String, startsWithSegs b p = true → b ++ p.drop b.length = p := by
  induction b with
  | nil =>
    intro p _
    simp
  | cons x xs ih =>
    intro p h
    cases p with
    | nil => simp [startsWithSegs] at h
    | cons y ys =>
      simp only [startsWithSegs, Bool.and_eq_true, beq_iff_eq] at h
      obtain ⟨hxy, hrest⟩ := h
      subst hxy
      simp only [List.length_cons, List.drop_succ_cons, List.cons_append]
      rw [ih ys hrest]

theorem collectAsyncResults_eq (jobs : List (Except PyError Unit)) :
    collectAsyncResults jobs =
      (match firstError jobs with
       | some e => Except.error e
       | none => Except.ok ()) := by
  induction jobs with
  | nil => rfl
  | cons j rest ih =>
    cases j with
    | ok u => simpa [collectAsyncResults, firstError] using ih
    | error e => rfl

theorem find?_map_setEntry (ctx : String) (t : List Row) :
    ∀ db : DBState, db.any (fun e => e.fst == ctx) = true →
      (db.map (fun e => if e.fst == ctx then (ctx, t) else e)).find?
          (fun e => e.fst == ctx) = some (ctx, t) := by
  intro db
  induction db with
  | nil => intro h; simp at h
  | cons e es ih =>
    intro h
    by_cases he : (e.fst == ctx) = true
    · simp only [List.map_cons, if_pos he]
      exact List.find?_cons_of_pos _ (by simp)
    · simp only [List.map_cons, if_neg he]
      rw [List.find?_cons_of_neg _ (by simp [he])]
      apply ih
      simpa [List.any_cons, he] using h

theorem getTable_setTable_same (db : DBState) (ctx : String) (t : List Row) :
    getTable (setTable db ctx t) ctx = t := by
  unfold setTable getTable
  by_cases hany : db.any (fun e => e.fst == ctx) = true
  · rw [if_pos hany, find?_map_setEntry ctx t db hany]
  · rw [if_neg hany, List.find?_append]
    have h1 : db.find? (fun e => e.fst == ctx) = none := by
      rw [List.find?_eq_none]
      intro x hx
      have hx2 := List.any_eq_false.mp (Bool.not_eq_true _ |>.mp hany) x hx
      simpa using hx2
    rw [h1, Option.none_or, List.find?_cons_of_pos _ (by simp)]

theorem find?_map_setEntry_other (ctx' ctx : String) (t : List Row)
    (hcc : (ctx' == ctx) = false) :
    ∀ db : DBState,
      (db.map (fun e => if e.fst == ctx' then (ctx', t) else e)).find?
          (fun e => e.fst == ctx) = db.find? (fun e => e.fst == ctx) := by
  intro db
  induction db with
  | nil => rfl
  | cons e es ih =>
    by_cases he : (e.fst == ctx') = true
    · simp only [List.map_cons, if_pos he]
      have hef : (e.fst == ctx) = false := by
        have he2 : e.fst = ctx' := by simpa using he
        rw [he2]
        exact hcc
      rw [List.find?_cons, List.find?_cons]
      simp only [hcc, hef]
      exact ih
    · simp only [List.map_cons, if_neg he]
      rw [List.find?_cons, List.find?_cons]
      cases hef : (e.fst == ctx) with
      | false =>
        simp only [hef]
        exact ih
      | true => simp only [hef]

theorem getTable_setTable_other (db : DBState) (ctx' ctx : String) (t : List Row)
    (hcc : (ctx' == ctx) = false) :
    getTable (setTable db ctx' t) ctx = getTable db ctx := by
  unfold setTable getTable
  by_cases hany : db.any (fun e => e.fst == ctx') = true
  · rw [if_pos hany, find?_map_setEntry_other ctx' ctx t hcc db]
  · rw [if_neg hany, List.find?_append, List.find?_cons_of_neg _ (by simp [hcc])]
    rw [show List.find? (fun e => e.fst == ctx) ([] : DBState) = none from rfl,
      Option.or_none]

theorem dbLog_filter (db : DBState) (s : Bool) (c v' ctx' ctx v : String) :
    (getTable (dbLog db s c v' ctx') ctx).filter (fun r => r.video_id == v) =
      if (ctx' == ctx && v' == v) = true then [⟨s, c, v'⟩]
      else (getTable db ctx).filter (fun r => r.video_id == v) := by
  unfold dbLog
  by_cases hctx : (ctx' == ctx) = true
  · have hce : ctx' = ctx := by simpa using hctx
    subst hce
    rw [getTable_setTable_same]
    unfold insertOrReplace
    rw [List.filter_append]
    by_cases hv : (v' == v) = true
    · have hve : v' = v := by simpa using hv
      rw [if_pos (by simp [hv])]
      have h1 : ((getTable db ctx').filter (fun q => q.video_id != v')).filter
          (fun r => r.video_id == v) = [] := by
        rw [List.filter_filter, List.filter_eq_nil_iff]
        intro a _
        simp [bne, hve]
      have h2 : List.filter (fun r => r.video_id == v) [(⟨s, c, v'⟩ : Row)]
          = [⟨s, c, v'⟩] := by
        simp [List.filter, hv]
      rw [h1, h2, List.nil_append]
    · have hv2 : (v' == v) = false := Bool.not_eq_true _ |>.mp hv
      have hvne : v ≠ v' := by
        intro hvv
        rw [hvv] at hv2
        simp at hv2
      rw [if_neg (by simp [hv2])]
      have h1 : List.filter (fun r => r.video_id == v) [(⟨s, c, v'⟩ : Row)] = [] := by
        simp [List.filter, hv]
      have h2 : ((getTable db ctx').filter (fun q => q.video_id != v')).filter
          (fun r => r.video_id == v) =
          (getTable db ctx').filter (fun r => r.video_id == v) := by
        rw [List.filter_filter]
        apply List.filter_congr
        intro x _
        by_cases hxv : x.video_id = v
        · simp [bne, hxv, beq_iff_eq, hvne]
        · simp [bne, beq_iff_eq, hxv]
      rw [h1, h2, List.append_nil]
  · have hctx2 : (ctx' == ctx) = false := Bool.not_eq_true _ |>.mp hctx
    rw [getTable_setTable_other db ctx' ctx _ hctx2, if_neg (by simp [hctx2])]

theorem getTable_filter_applyLogsFrom (events : List LogEvent) :
    ∀ (db : DBState) (ctx v : String),
      (getTable (applyLogsFrom db events) ctx).filter (fun r => r.video_id == v) =
        (match lastWriteFor events ctx v with
         | some e => [⟨e.status, e.channel_id, e.video_id⟩]
         | none => (getTable db ctx).filter (fun r => r.video_id == v)) := by
  induction events with
  | nil => intro db ctx v; rfl
  | cons e es ih =>
    intro db ctx v
    rw [show applyLogsFrom db (e :: es)
        = applyLogsFrom (dbLog db e.status e.channel_id e.video_id e.ctx) es from rfl]
    rw [ih]
    have hlw : lastWriteFor (e :: es) ctx v =
        (lastWriteFor es ctx v).or
          (match e.ctx == ctx && e.video_id == v with
           | true => some e
           | false => none) := by
      unfold lastWriteFor
      rw [List.reverse_cons, List.find?_append, List.find?_cons]
      rfl
    cases hes : lastWriteFor es ctx v with
    | some e' => rw [hlw, hes]; rfl
    | none =>
      rw [hlw, hes, Option.none_or, dbLog_filter]
      by_cases hm : (e.ctx == ctx && e.video_id == v) = true
      · rw [if_pos hm, hm]
      · have hm2 : (e.ctx == ctx && e.video_id == v) = false :=
          Bool.not_eq_true _ |>.mp hm
        rw [if_neg hm, hm2]

/-! Claim theorems. -/

/-- C10: on every input on which `get_abs_rel_paths` returns (a relative
input, or an absolute input located under the base), the returned pair
satisfies abs_path = base_path joined with rel_path with rel_path
relative; for an absolute input not located under the base, the call
raises instead of returning. -/
theorem get_abs_rel_paths_round_trip (input_path base_path : PyPath) :
    (∀ a r, get_abs_rel_paths input_path base_path = Except.ok (a, r) →
        a = joinPath base_path r ∧ r.absolute = false) ∧
    (isabs input_path = true → locatedUnder input_path base_path = false →
        get_abs_rel_paths input_path base_path = Except.error PyError.valueError) := by
  constructor
  · intro a r h
    unfold get_abs_rel_paths at h
    by_cases habs : isabs input_path = true
    · rw [if_pos habs] at h
      cases hq : relativeTo input_path base_path with
      | ok rel =>
        rw [hq] at h
        have hpair : (input_path, rel) = (a, r) := Except.ok.inj h
        have ha : input_path = a := congrArg Prod.fst hpair
        have hr : rel = r := congrArg Prod.snd hpair
        unfold relativeTo at hq
        by_cases hc : (base_path.absolute == input_path.absolute
            && startsWithSegs base_path.parts input_path.parts) = true
        · rw [if_pos hc] at hq
          have hrel : rel = ⟨false, input_path.parts.drop base_path.parts.length⟩ :=
            (Except.ok.inj hq).symm
          simp only [Bool.and_eq_true, beq_iff_eq] at hc
          obtain ⟨hanchor, hsegs⟩ := hc
          have hjoin : joinPath base_path
              ⟨false, input_path.parts.drop base_path.parts.length⟩
              = ⟨input_path.absolute, input_path.parts⟩ := by
            unfold joinPath
            rw [if_neg (by simp)]
            rw [hanchor, startsWithSegs_append_drop _ _ hsegs]
          constructor
          · rw [← ha, ← hr, hrel, hjoin]
          · rw [← hr, hrel]
        · rw [if_neg hc] at hq
          exact Except.noConfusion hq
      | error e =>
        rw [hq] at h
        exact Except.noConfusion h
    · rw [if_neg habs] at h
      have hpair : (joinPath base_path input_path, input_path) = (a, r) :=
        Except.ok.inj h
      have ha : joinPath base_path input_path = a := congrArg Prod.fst hpair
      have hr : input_path = r := congrArg Prod.snd hpair
      refine ⟨by rw [← ha, ← hr], ?_⟩
      rw [← hr]
      exact Bool.not_eq_true _ |>.mp habs
  · intro habs hunder
    unfold get_abs_rel_paths
    rw [if_pos habs]
    unfold relativeTo
    have hc : (base_path.absolute == input_path.absolute
        && startsWithSegs base_path.parts input_path.parts) = false := hunder
    rw [if_neg (by simp [hc])]

/-- Witness for C10 at concrete paths. -/
theorem get_abs_rel_paths_round_trip_witness :
    ((⟨true, ["a", "b"]⟩ : PyPath) = joinPath ⟨true, ["a"]⟩ ⟨false, ["b"]⟩ ∧
      (⟨false, ["b"]⟩ : PyPath).absolute = false) ∧
    get_abs_rel_paths ⟨true, ["x"]⟩ ⟨true, ["y"]⟩ = Except.error PyError.valueError :=
  ⟨(get_abs_rel_paths_round_trip ⟨true, ["a", "b"]⟩ ⟨true, ["a"]⟩).1
      ⟨true, ["a", "b"]⟩ ⟨false, ["b"]⟩ rfl,
   (get_abs_rel_paths_round_trip ⟨true, ["x"]⟩ ⟨true, ["y"]⟩).2 rfl (by decide)⟩

/-- C9: when every file below the input root has a non-empty stem (no
file is literally named `.wav`), the glob enumeration of the separation
and voice-activity-detection stages is empty and the stage submits zero
jobs: the pattern ends in the literal name `.wav` with no wildcard
before the extension. -/
theorem wav_glob_enumerates_nothing (files : List (List String))
    (h : ∀ p ∈ files, p.getLast? ≠ some ".wav") :
    enumerateWavCandidates files = [] ∧ separate_all_submission_count files = 0 := by
  have hnil : enumerateWavCandidates files = [] := by
    unfold enumerateWavCandidates
    rw [List.filter_eq_nil_iff]
    intro p hp
    have hlast := h p hp
    match p with
    | [] => simp [wavGlobMatch]
    | [a] => simp [wavGlobMatch]
    | [a, b] => simp [wavGlobMatch]
    | [a, b, c] =>
      have hc : c ≠ ".wav" := by
        simpa using hlast
      simp [wavGlobMatch, hc]
    | a :: b :: c :: d :: rest => simp [wavGlobMatch]
  exact ⟨hnil, by simp [separate_all_submission_count, hnil]⟩

/-- Witness for C9 on a directory tree holding one normally-named file. -/
theorem wav_glob_enumerates_nothing_witness :
    enumerateWavCandidates [["chA", "vid1", "title_vid1.wav"]] = [] ∧
      separate_all_submission_count [["chA", "vid1", "title_vid1.wav"]] = 0 :=
  wav_glob_enumerates_nothing [["chA", "vid1", "title_vid1.wav"]] (by decide)

/-- C6: with the configured worker count equal to 0 (the default of
`cfg.get` in the downloader), the run fails at worker-pool construction
with a ValueError for every job collection, executing no job and never
closing the ledger; zero does not mean unbounded concurrency. -/
theorem pool_zero_workers_value_error (jobs : List (Except PyError Unit)) :
    start_download 0 jobs = ⟨Except.error PyError.valueError, 0⟩ :=
  rfl

/-- C3: for the file the acquisition stage saves under channel `chA` and
video `vid1` (path root/chA/vid1/title_vid1.wav), the separation stage
derives channel_id = "vid1" and video_id = "chA": the identity is
swapped relative to the layout the acquisition stage wrote. -/
theorem separator_swaps_channel_and_video_ids :
    download_outdir "root" "chA" "vid1" ++ ["title_vid1.wav"]
        = ["root", "chA", "vid1", "title_vid1.wav"] ∧
    separate_audio_ids ["root", "chA", "vid1", "title_vid1.wav"] = ("vid1", "chA") :=
  ⟨rfl, rfl⟩

/-- C1 counterexample: against a ledger in which (chA, vid1) is already
marked complete for the acquisition stage, the re-run still dispatches
(chA, vid1): the item marked complete is not excluded from dispatch. -/
theorem downloader_dispatches_completed_item :
    isCompleteDB (dbLog [] true "chA" "vid1" "YoutubeDownloader")
        "YoutubeDownloader" "chA" "vid1" = true ∧
    ("chA", "vid1") ∈ (downloader_run (dbLog [] true "chA" "vid1" "YoutubeDownloader")
        [("chA", ["vid1"])]).snd :=
  ⟨rfl, by decide⟩

/-- C1 amended: the stage consults no completion read before dispatching;
for every prior ledger state, every enumerated (channel, video) pair is
dispatched, including pairs already marked complete in the ledger. -/
theorem downloader_dispatches_every_enumerated_item
    (db : DBState) (channel_map : List (String × List String))
    (channel_id video_id : String) (video_ids : List String)
    (hc : (channel_id, video_ids) ∈ channel_map) (hv : video_id ∈ video_ids) :
    (channel_id, video_id) ∈ (downloader_run db channel_map).snd :=
  List.mem_flatMap.mpr ⟨(channel_id, video_ids), hc, List.mem_map.mpr ⟨video_id, hv, rfl⟩⟩

/-- Witness for the amended C1 at a ledger already marking the item complete. -/
theorem downloader_dispatches_every_enumerated_item_witness :
    ("vid1", "chA") ∈ (downloader_run (dbLog [] true "vid1" "chA" "YoutubeDownloader")
        [("vid1", ["chA"])]).snd :=
  downloader_dispatches_every_enumerated_item
    (dbLog [] true "vid1" "chA" "YoutubeDownloader") [("vid1", ["chA"])]
    "vid1" "chA" ["chA"] (by decide) (by decide)

/-- C2 counterexample: a batch of five work items whose third job raises
does not yield five outcomes; the dispatch call re-raises the job's error
to the caller (and the ledger is left unclosed). -/
theorem dispatch_aborts_on_failing_item :
    start_download 2
        [Except.ok (), Except.ok (), Except.error PyError.jobError,
          Except.ok (), Except.ok ()]
        = ⟨Except.error PyError.jobError, 0⟩ :=
  rfl

/-- C2 amended: with a working pool, the result-collection loop re-raises
the first job error in submission order, aborting the batch call; only
when every job succeeds does the call return normally — the caller never
receives a per-item outcome sequence. -/
theorem start_download_propagates_first_job_error
    (num_workers : Nat) (jobs : List (Except PyError Unit)) (h : num_workers ≠ 0) :
    (start_download num_workers jobs).result =
      (match firstError jobs with
       | some e => Except.error e
       | none => Except.ok ()) := by
  unfold start_download poolInit
  rw [if_neg h, collectAsyncResults_eq jobs]
  cases firstError jobs <;> rfl

/-- Witness for the amended C2 at a concrete failing batch. -/
theorem start_download_propagates_first_job_error_witness :
    (start_download 2 [Except.ok (), Except.error PyError.jobError, Except.ok ()]).result
        = Except.error PyError.jobError :=
  (start_download_propagates_first_job_error 2
      [Except.ok (), Except.error PyError.jobError, Except.ok ()] (by decide)).trans rfl

/-- C5 counterexample: with two configured sinks of which the first
raises, only one sink is invoked — the second sink never receives the
event, though the failure is reported to the caller. -/
theorem second_sink_not_reached_when_first_fails :
    loggersLoop [true, false] = (1, Except.error PyError.sinkError) :=
  rfl

/-- C5 amended: the fan-out loop of the multi-sink log delivers the event
to the sinks configured before the first failing sink and to the failing
sink itself, then aborts: sinks configured after the failing one never
receive the event, and the failure propagates to the caller; with no
failing sink every sink receives the event. -/
theorem loggers_log_stops_at_first_failing_sink (sinks : List Bool) :
    loggersLoop sinks =
      if sinks.any (fun b => b) then
        (sinks.findIdx (fun b => b) + 1, Except.error PyError.sinkError)
      else
        (sinks.length, Except.ok ()) := by
  induction sinks with
  | nil => rfl
  | cons f rest ih =>
    cases f with
    | true => simp [loggersLoop, List.any_cons, List.findIdx_cons]
    | false =>
      by_cases hr : rest.any (fun b => b) = true
      · simp [loggersLoop, ih, List.any_cons, List.findIdx_cons, hr]
      · simp [loggersLoop, ih, List.any_cons, List.findIdx_cons, hr]

/-- C7 counterexample: on the run whose second item's job raised, the
ledger's close is never invoked — the exception propagates out of the
dispatch before the close call. -/
theorem close_not_called_when_job_fails :
    (start_download 2 [Except.ok (), Except.error PyError.jobError]).closeCalls = 0 :=
  rfl

/-- C7 amended: the ledger's close is invoked exactly once on the exit
path where the pool was built and every job succeeded, and zero times on
every failure path (a job error re-raised during result collection, or a
worker-pool construction failure). -/
theorem close_called_once_only_on_success (num_workers : Nat)
    (jobs : List (Except PyError Unit)) :
    (start_download num_workers jobs).closeCalls =
      if num_workers ≠ 0 ∧ firstError jobs = none then 1 else 0 := by
  unfold start_download poolInit
  by_cases h : num_workers = 0
  · rw [if_pos h]
    simp [h]
  · rw [if_neg h, collectAsyncResults_eq jobs]
    cases hf : firstError jobs
    · simp [h, hf]
    · simp [h, hf]

/-- C8 counterexample: two writes whose composite keys (group, item,
stage) are distinct but share the item id leave one row, not two — the
per-stage table's declared primary key is the Video_ID column alone, so
the second write replaces the first. -/
theorem composite_keys_sharing_item_id_collapse :
    ((("g1", "i", "MusicSeparator") : String × String × String)
        ≠ ("g2", "i", "MusicSeparator")) ∧
    getTable (applyLogs
        [⟨true, "g1", "i", "MusicSeparator"⟩, ⟨true, "g2", "i", "MusicSeparator"⟩])
        "MusicSeparator" = [⟨true, "g2", "i"⟩] :=
  ⟨by decide, rfl⟩

/-- C8 amended: after any sequence of log calls, each per-stage table
holds at most one row per item id, equal to the last write for that
(stage, item id) pair — the upsert is keyed by (stage_name, item_id), not
by the full (stage_name, group_id, item_id) composite, so writes that
differ only in group_id replace one another within a stage, while
distinct item ids keep distinct rows. -/
theorem durable_rows_keyed_by_stage_and_item (events : List LogEvent) (ctx v : String) :
    (getTable (applyLogs events) ctx).filter (fun r => r.video_id == v) =
      (match lastWriteFor events ctx v with
       | some e => [⟨e.status, e.channel_id, e.video_id⟩]
       | none => []) := by
  rw [show applyLogs events = applyLogsFrom [] events from rfl,
    getTable_filter_applyLogsFrom events [] ctx v]
  cases lastWriteFor events ctx v with
  | some e => rfl
  | none => rfl

/-- C4: the stage-side ledger call passes four positional arguments
(status, channel id, video id, stage name), but `Loggers.log` accepts
three, so logging one event through the multi-sink ledger raises a
TypeError and delivers the event to no sink; and even a three-argument
`Loggers.log` call raises, because it forwards three arguments to
`DatabaseLogger.log`, which requires a fourth (the stage name). -/
theorem multi_sink_log_raises_type_error :
    stageLogCall [Sink.database, Sink.console] ⟨[], 0⟩ false "chA" "vid1" "YoutubeDownloader"
        = Except.error PyError.typeError ∧
    loggersLog [Sink.database, Sink.console] ⟨[], 0⟩
        [PyVal.pyBool false, PyVal.pyStr "chA", PyVal.pyStr "vid1"]
        = Except.error PyError.typeError :=
  ⟨rfl, rfl⟩

end RoarPipeline
